import Mathlib

/-!
Shallow embedding of the AssetLifecycle enforcement core
(`src/core/state_machine.py`, `src/core/seqid_manager.py`,
`src/core/enforcement_engine.py`).

Modelling choices:
* `datetime` values are modelled as integers (an abstract time axis);
  `timedelta(minutes=v)` is the integer `v` on that axis — only order and
  addition of times matter to the code under verification.
* Python `float` measurement values (purity and thresholds) are modelled as
  exact rationals `ℚ`; the code only compares them.
* Python dicts are modelled as association lists with first-match lookup and
  cons update (observably equivalent to dict assignment/lookup).
* Each engine call receives the wall clock reading `wall : Int` explicitly;
  it stands for the `datetime.now(...)` reads performed during that call
  (`_now_iso`, and the implicit default `now` inside `SeqIdManager` methods
  called without a time argument).
* Python exceptions (`ValueError` for a blank uid in `issue`) are modelled
  by an `Option` result: `none` = exception raised.
-/

namespace AssetLifecycle

/-- `core/state_machine.py` : `AssetState` enum. -/
inductive AssetState where
  | UNREGISTERED
  | RFID_VERIFIED
  | SEQ_BOUND
  | XRF_VERIFIED
  | SLOT_BOUND
  | STORED
deriving DecidableEq, Repr

/-- `core/state_machine.py` : `EventType` enum. -/
inductive EventType where
  | RFID_READ
  | SEQ_ASSIGNED
  | XRF_REPORT_ACCEPTED
  | SLOT_ASSIGNED
  | STORAGE_CONFIRMED
  | SLOT_MOTION
  | TAMPER
deriving DecidableEq, Repr

open AssetState EventType

/-- String value of an `AssetState` (mirrors the Python `str`-enum values),
used to format the `ILLEGAL_TRANSITION` reason. -/
def AssetState.value : AssetState → String
  | UNREGISTERED => "UNREGISTERED"
  | RFID_VERIFIED => "RFID_VERIFIED"
  | SEQ_BOUND => "SEQ_BOUND"
  | XRF_VERIFIED => "XRF_VERIFIED"
  | SLOT_BOUND => "SLOT_BOUND"
  | STORED => "STORED"

/-- String value of an `EventType` (mirrors the Python `str`-enum values). -/
def EventType.value : EventType → String
  | RFID_READ => "RFID_READ"
  | SEQ_ASSIGNED => "SEQ_ASSIGNED"
  | XRF_REPORT_ACCEPTED => "XRF_REPORT_ACCEPTED"
  | SLOT_ASSIGNED => "SLOT_ASSIGNED"
  | STORAGE_CONFIRMED => "STORAGE_CONFIRMED"
  | SLOT_MOTION => "SLOT_MOTION"
  | TAMPER => "TAMPER"

/-- `core/state_machine.py` : the `_ALLOWED` transition table,
`(current_state, event) -> next_state`, as a partial function. -/
def _ALLOWED : AssetState → EventType → Option AssetState
  | UNREGISTERED, RFID_READ => some RFID_VERIFIED
  | RFID_VERIFIED, SEQ_ASSIGNED => some SEQ_BOUND
  | SEQ_BOUND, XRF_REPORT_ACCEPTED => some XRF_VERIFIED
  | XRF_VERIFIED, SLOT_ASSIGNED => some SLOT_BOUND
  | SLOT_BOUND, STORAGE_CONFIRMED => some STORED
  | _, _ => none

/-- `core/state_machine.py` : `_NON_TRANSITION_EVENTS` membership. -/
def nonTransitionEvent : EventType → Bool
  | SLOT_MOTION => true
  | TAMPER => true
  | _ => false

/-- `core/state_machine.py` : `TransitionResult` dataclass. -/
structure TransitionResult where
  accepted : Bool
  prev_state : AssetState
  event : EventType
  next_state : AssetState
  reason : String
deriving DecidableEq, Repr

/-- `core/state_machine.py` : `AssetLifecycleFSM.apply`.  The FSM's single
mutable field is its state, so `apply` is modelled as
`state → event → TransitionResult`; the post-call state is
`(apply s e).next_state` (on rejection and on non-transition events the
source leaves the field untouched and sets `next_state = prev`). -/
def FSM.apply (prev : AssetState) (event : EventType) : TransitionResult :=
  if nonTransitionEvent event then
    { accepted := true, prev_state := prev, event := event, next_state := prev,
      reason := "NON_TRANSITION_EVENT_ACCEPTED" }
  else
    match _ALLOWED prev event with
    | none =>
      { accepted := false, prev_state := prev, event := event, next_state := prev,
        reason := "ILLEGAL_TRANSITION:" ++ prev.value ++ "->" ++ event.value }
    | some nxt =>
      { accepted := true, prev_state := prev, event := event, next_state := nxt,
        reason := "STATE_ADVANCED" }

/-- `core/state_machine.py` : `AssetLifecycleFSM.can_apply`. -/
def FSM.can_apply (prev : AssetState) (event : EventType) : Bool :=
  if nonTransitionEvent event then true else (_ALLOWED prev event).isSome

/-- Association-list lookup, first match wins; together with cons as update
this models Python dict assignment and lookup. -/
def alookup {α β : Type} [DecidableEq α] : List (α × β) → α → Option β
  | [], _ => none
  | p :: rest, k => if p.1 = k then some p.2 else alookup rest k

/-- `core/seqid_manager.py` : `SeqBinding` frozen dataclass.
Timestamps are integers on the abstract time axis. -/
structure SeqBinding where
  uid : String
  seq_id : Int
  issued_at : Int
  expires_at : Int
  used : Bool
deriving DecidableEq, Repr

/-- `core/seqid_manager.py` : the mutable state of a `SeqIdManager`:
`_counter`, `_validity` and the two binding dicts, the dicts as
association lists with first-match lookup and cons update. -/
structure SeqState where
  counter : Int
  validity : Int
  by_uid : List (String × SeqBinding)
  by_seq : List (Int × SeqBinding)
deriving DecidableEq, Repr

/-- `core/seqid_manager.py` : `SeqIdManager.__init__` — rejects
`start_counter < 1` and `validity_minutes < 1` (ValueError = `none`). -/
def mkSeqIdManager (start_counter validity_minutes : Int) : Option SeqState :=
  if start_counter < 1 then none
  else if validity_minutes < 1 then none
  else some { counter := start_counter, validity := validity_minutes,
              by_uid := [], by_seq := [] }

/-- `core/seqid_manager.py` : `SeqIdManager.is_expired` with explicit `now`:
`t > binding.expires_at`. -/
def is_expired (b : SeqBinding) (t : Int) : Bool :=
  b.expires_at < t

/-- The Python guard `not uid or not uid.strip()`: `uid` is empty or
consists only of whitespace. -/
def blankUid (uid : String) : Bool :=
  uid.data.all Char.isWhitespace

/-- The binding allocated by `issue` when no active one exists:
`seq_id = counter`, `issued_at = t`, `expires_at = t + validity`,
`used = false`. -/
def freshBinding (s : SeqState) (uid : String) (t : Int) : SeqBinding :=
  { uid := uid, seq_id := s.counter, issued_at := t,
    expires_at := t + s.validity, used := false }

/-- The manager state after `issue` allocates a fresh binding: the counter
advances and both indices record the new binding. -/
def allocState (s : SeqState) (uid : String) (t : Int) : SeqState :=
  { s with counter := s.counter + 1,
           by_uid := (uid, freshBinding s uid t) :: s.by_uid,
           by_seq := (s.counter, freshBinding s uid t) :: s.by_seq }

/-- `core/seqid_manager.py` : `SeqIdManager.issue` with explicit
`issued_at = t` (the caller-supplied time, or the wall clock when the
caller omits it).  `none` models the ValueError on a blank uid. -/
def issue (s : SeqState) (uid : String) (t : Int) :
    Option (SeqBinding × SeqState) :=
  if blankUid uid then none
  else
    match alookup s.by_uid uid with
    | some existing =>
        if !(is_expired existing t) && !existing.used then some (existing, s)
        else some (freshBinding s uid t, allocState s uid t)
    | none => some (freshBinding s uid t, allocState s uid t)

/-- `core/seqid_manager.py` : `SeqIdManager.validate` with explicit `now = t`.
The source mutates nothing here, so the model returns only the reason
string. -/
def validate (s : SeqState) (uid : String) (seq_id : Int) (t : Int) : String :=
  match alookup s.by_uid uid with
  | none => "NO_BINDING_FOR_UID"
  | some b =>
    if b.seq_id ≠ seq_id then "SEQ_MISMATCH"
    else if is_expired b t then "EXPIRED"
    else if b.used then "ALREADY_USED"
    else "OK"

/-- `core/seqid_manager.py` : `SeqIdManager.mark_used` — replaces the stored
frozen binding by a copy with `used := true` in both indices. -/
def mark_used (s : SeqState) (uid : String) (seq_id : Int) :
    String × SeqState :=
  match alookup s.by_uid uid with
  | none => ("NOT_FOUND", s)
  | some b =>
    if b.seq_id ≠ seq_id then ("SEQ_MISMATCH", s)
    else
      let used_binding : SeqBinding :=
        { uid := b.uid, seq_id := b.seq_id, issued_at := b.issued_at,
          expires_at := b.expires_at, used := true }
      ("OK", { s with by_uid := (uid, used_binding) :: s.by_uid,
                      by_seq := (seq_id, used_binding) :: s.by_seq })

/-- `core/enforcement_engine.py` : `Decision` enum. -/
inductive Decision where
  | ACCEPT
  | REJECT
  | ALERT
deriving DecidableEq, Repr

open Decision

/-- `core/enforcement_engine.py` : `EnforcementDecision` frozen dataclass.
`details` is the event-specific key/value mapping, values stringified. -/
structure EnforcementDecision where
  decision : Decision
  reason : String
  asset_id : String
  prev_state : AssetState
  next_state : AssetState
  event : EventType
  timestamp_utc : Int
  details : List (String × String)
deriving DecidableEq, Repr

/-- `core/enforcement_engine.py` : the engine's mutable state: the shared
`SeqIdManager` and the per-UID FSM map.  `_get_fsm` lazily creates a fresh
FSM at `UNREGISTERED`, so the dict is modelled as a total map defaulting to
`UNREGISTERED` (observably identical). -/
structure EngineState where
  seq : SeqState
  fsms : String → AssetState

/-- `core/enforcement_engine.py` : `AssetLifecycleEnforcementEngine.__init__`
with a given manager state and no FSMs yet. -/
def initEngine (s : SeqState) : EngineState :=
  { seq := s, fsms := fun _ => UNREGISTERED }

/-- Current FSM state of a UID (`_get_fsm(uid).state`). -/
def EngineState.stateOf (st : EngineState) (uid : String) : AssetState :=
  st.fsms uid

/-- Store a UID's FSM state after an `apply` call. -/
def EngineState.setFsm (st : EngineState) (uid : String) (a : AssetState) :
    EngineState :=
  { st with fsms := fun u => if u = uid then a else st.fsms u }

/-- `core/enforcement_engine.py` : `_accept` helper (`timestamp_utc` is a
fresh wall-clock read in the source). -/
def _accept (uid : String) (tr : TransitionResult)
    (details : List (String × String)) (wall : Int) : EnforcementDecision :=
  { decision := ACCEPT, reason := tr.reason, asset_id := uid,
    prev_state := tr.prev_state, next_state := tr.next_state,
    event := tr.event, timestamp_utc := wall, details := details }

/-- `core/enforcement_engine.py` : `_reject` helper. -/
def _reject (uid : String) (tr : TransitionResult) (reason : String)
    (details : List (String × String)) (wall : Int) : EnforcementDecision :=
  { decision := REJECT, reason := reason, asset_id := uid,
    prev_state := tr.prev_state, next_state := tr.next_state,
    event := tr.event, timestamp_utc := wall, details := details }

/-- `core/enforcement_engine.py` : `_reject_simple` helper. -/
def _reject_simple (uid : String) (prev : AssetState) (event : EventType)
    (reason : String) (details : List (String × String)) (wall : Int) :
    EnforcementDecision :=
  { decision := REJECT, reason := reason, asset_id := uid,
    prev_state := prev, next_state := prev, event := event,
    timestamp_utc := wall, details := details }

/-- `core/enforcement_engine.py` : `handle_rfid_read`.  The local
`t = ts_utc or now` is computed in the source but unused by this handler. -/
def handle_rfid_read (st : EngineState) (uid gateway_id : String)
    (_ts_utc : Option Int) (wall : Int) : EnforcementDecision × EngineState :=
  let prev := st.stateOf uid
  let tr := FSM.apply prev RFID_READ
  let st1 := st.setFsm uid tr.next_state
  if !tr.accepted then
    (_reject uid tr tr.reason [("gateway_id", gateway_id)] wall, st1)
  else
    (_accept uid tr [("gateway_id", gateway_id)] wall, st1)

/-- `core/enforcement_engine.py` : `handle_seq_request`.  The source calls
`self.seq.issue(uid)` with no time argument, so issuance uses the wall
clock; `none` models the ValueError `issue` raises on a blank uid. -/
def handle_seq_request (st : EngineState) (uid : String)
    (ts_utc : Option Int) (wall : Int) :
    Option (EnforcementDecision × EngineState) :=
  let prev := st.stateOf uid
  let t := ts_utc.getD wall
  if prev ≠ RFID_VERIFIED then
    some (_reject_simple uid prev SEQ_ASSIGNED "STATE_NOT_RFID_VERIFIED"
            [("ts", toString t)] wall, st)
  else
    match issue st.seq uid wall with
    | none => none
    | some (binding, s1) =>
      let st1 : EngineState := { st with seq := s1 }
      let tr := FSM.apply prev SEQ_ASSIGNED
      let st2 := st1.setFsm uid tr.next_state
      if !tr.accepted then
        some (_reject uid tr tr.reason
                [("seq_id", toString binding.seq_id),
                 ("expires_at", toString binding.expires_at)] wall, st2)
      else
        some ({ decision := ACCEPT, reason := "SEQ_ISSUED", asset_id := uid,
                prev_state := tr.prev_state, next_state := tr.next_state,
                event := SEQ_ASSIGNED, timestamp_utc := t,
                details := [("seq_id", toString binding.seq_id),
                            ("issued_at", toString binding.issued_at),
                            ("expires_at", toString binding.expires_at)] },
              st2)

/-- `core/enforcement_engine.py` : the sanity-threshold configuration dict
passed to `handle_xrf_report`; absent keys fall back to the documented
defaults. -/
structure Thresholds where
  purity_min_percent : Option ℚ
  scan_duration_min_seconds : Option Int
  contact_required : Option Bool
deriving DecidableEq, Repr

/-- `th = thresholds or {}` in the source. -/
def thOf (thresholds : Option Thresholds) : Thresholds :=
  thresholds.getD
    { purity_min_percent := none, scan_duration_min_seconds := none,
      contact_required := none }

/-- `purity_min = float(th.get("purity_min_percent", 99.0))`. -/
def purity_min_of (thresholds : Option Thresholds) : ℚ :=
  (thOf thresholds).purity_min_percent.getD 99

/-- `scan_min = int(th.get("scan_duration_min_seconds", 8))`. -/
def scan_min_of (thresholds : Option Thresholds) : Int :=
  (thOf thresholds).scan_duration_min_seconds.getD 8

/-- `contact_required = bool(th.get("contact_required", True))`. -/
def contact_required_of (thresholds : Option Thresholds) : Bool :=
  (thOf thresholds).contact_required.getD true

/-- `core/enforcement_engine.py` : `handle_xrf_report`.  Float measurement
values are modelled as exact rationals.  Note two source facts carried over
verbatim: the local `t = ts_utc or now` is never used by this handler, and
`self.seq.validate(uid, seq_id)` is called without a time argument, so
validation uses the wall clock `wall`, not `ts_utc`. -/
def handle_xrf_report (st : EngineState) (uid : String) (seq_id : Int)
    (purity : ℚ) (scan_duration_s : Int) (contact_ok : Bool) (pc_id : String)
    (_ts_utc : Option Int) (thresholds : Option Thresholds) (wall : Int) :
    EnforcementDecision × EngineState :=
  let prev := st.stateOf uid
  if prev ≠ SEQ_BOUND then
    (_reject_simple uid prev XRF_REPORT_ACCEPTED "STATE_NOT_SEQ_BOUND"
       [("pc_id", pc_id)] wall, st)
  else
    let seq_status := validate st.seq uid seq_id wall
    if seq_status ≠ "OK" then
      (_reject_simple uid prev XRF_REPORT_ACCEPTED
         ("SEQ_INVALID:" ++ seq_status)
         [("pc_id", pc_id), ("seq_id", toString seq_id)] wall, st)
    else
      if purity < purity_min_of thresholds then
        (_reject_simple uid prev XRF_REPORT_ACCEPTED
           "SANITY_FAIL:PURITY_TOO_LOW"
           [("purity", toString purity),
            ("purity_min", toString (purity_min_of thresholds)),
            ("pc_id", pc_id)] wall, st)
      else if scan_duration_s < scan_min_of thresholds then
        (_reject_simple uid prev XRF_REPORT_ACCEPTED
           "SANITY_FAIL:SCAN_TOO_SHORT"
           [("scan_duration_s", toString scan_duration_s),
            ("scan_min", toString (scan_min_of thresholds)),
            ("pc_id", pc_id)] wall, st)
      else if contact_required_of thresholds && !contact_ok then
        (_reject_simple uid prev XRF_REPORT_ACCEPTED
           "SANITY_FAIL:CONTACT_NOT_OK"
           [("contact_ok", toString contact_ok), ("pc_id", pc_id)] wall, st)
      else
        let tr := FSM.apply prev XRF_REPORT_ACCEPTED
        let st1 := st.setFsm uid tr.next_state
        if !tr.accepted then
          (_reject uid tr tr.reason [("pc_id", pc_id)] wall, st1)
        else
          let s2 := (mark_used st1.seq uid seq_id).2
          (_accept uid tr
             [("pc_id", pc_id), ("seq_id", toString seq_id),
              ("purity", toString purity),
              ("scan_duration_s", toString scan_duration_s),
              ("contact_ok", toString contact_ok)] wall,
           { st1 with seq := s2 })

/-- `core/enforcement_engine.py` : `handle_slot_assigned`. -/
def handle_slot_assigned (st : EngineState) (uid slot_id : String)
    (_ts_utc : Option Int) (wall : Int) : EnforcementDecision × EngineState :=
  let prev := st.stateOf uid
  if prev ≠ XRF_VERIFIED then
    (_reject_simple uid prev SLOT_ASSIGNED "STATE_NOT_XRF_VERIFIED"
       [("slot_id", slot_id)] wall, st)
  else
    let tr := FSM.apply prev SLOT_ASSIGNED
    let st1 := st.setFsm uid tr.next_state
    if !tr.accepted then
      (_reject uid tr tr.reason [("slot_id", slot_id)] wall, st1)
    else
      (_accept uid tr [("slot_id", slot_id)] wall, st1)

/-- `core/enforcement_engine.py` : `handle_storage_confirmed`. -/
def handle_storage_confirmed (st : EngineState) (uid slot_id : String)
    (_ts_utc : Option Int) (wall : Int) : EnforcementDecision × EngineState :=
  let prev := st.stateOf uid
  if prev ≠ SLOT_BOUND then
    (_reject_simple uid prev STORAGE_CONFIRMED "STATE_NOT_SLOT_BOUND"
       [("slot_id", slot_id)] wall, st)
  else
    let tr := FSM.apply prev STORAGE_CONFIRMED
    let st1 := st.setFsm uid tr.next_state
    if !tr.accepted then
      (_reject uid tr tr.reason [("slot_id", slot_id)] wall, st1)
    else
      (_accept uid tr [("slot_id", slot_id)] wall, st1)

/-- `core/enforcement_engine.py` : `handle_slot_motion` — always an ALERT,
state untouched (non-transition event). -/
def handle_slot_motion (st : EngineState) (uid slot_id : String)
    (ts_utc : Option Int) (wall : Int) : EnforcementDecision × EngineState :=
  let t := ts_utc.getD wall
  let prev := st.stateOf uid
  let tr := FSM.apply prev SLOT_MOTION
  let st1 := st.setFsm uid tr.next_state
  ({ decision := ALERT, reason := "SLOT_MOTION_DETECTED", asset_id := uid,
     prev_state := tr.prev_state, next_state := tr.next_state,
     event := SLOT_MOTION, timestamp_utc := t,
     details := [("slot_id", slot_id)] }, st1)

/-- One engine operation (one public handler call with its arguments). -/
inductive Op where
  | rfid (uid gateway_id : String) (ts_utc : Option Int)
  | seqReq (uid : String) (ts_utc : Option Int)
  | xrf (uid : String) (seq_id : Int) (purity : ℚ) (scan_duration_s : Int)
        (contact_ok : Bool) (pc_id : String) (ts_utc : Option Int)
        (thresholds : Option Thresholds)
  | slotAssign (uid slot_id : String) (ts_utc : Option Int)
  | storage (uid slot_id : String) (ts_utc : Option Int)
  | motion (uid slot_id : String) (ts_utc : Option Int)

/-- Dispatch one operation to its handler; `wall` is the wall clock during
the call.  `none` = the call raised (blank uid reaching `issue`). -/
def step (st : EngineState) (op : Op) (wall : Int) :
    Option (EnforcementDecision × EngineState) :=
  match op with
  | .rfid uid gw ts => some (handle_rfid_read st uid gw ts wall)
  | .seqReq uid ts => handle_seq_request st uid ts wall
  | .xrf uid sq p sc c pc ts th =>
      some (handle_xrf_report st uid sq p sc c pc ts th wall)
  | .slotAssign uid slot ts => some (handle_slot_assigned st uid slot ts wall)
  | .storage uid slot ts => some (handle_storage_confirmed st uid slot ts wall)
  | .motion uid slot ts => some (handle_slot_motion st uid slot ts wall)

/-- Run a list of timestamped operations; an exception aborts the run
(as it would abort the Python caller). -/
def run (st : EngineState) : List (Op × Int) →
    EngineState × List EnforcementDecision
  | [] => (st, [])
  | (op, w) :: rest =>
    match step st op w with
    | none => (st, [])
    | some (d, st1) =>
      ((run st1 rest).1, d :: (run st1 rest).2)

/-- An operation whose arguments satisfy the engine's caller contract:
`issue` (reached only by the SeqID request) demands a non-blank uid. -/
def opOk : Op → Bool
  | .seqReq uid _ => !(blankUid uid)
  | _ => true

/-- The internal consistency of a `SeqIdManager` state, as maintained by the
source: every `_by_seq` key was allocated below `_counter`; every current
`_by_uid` binding carries its own uid, is stored in `_by_seq` under its
`seq_id`, and its `seq_id` was allocated below `_counter`. -/
def seqInv (s : SeqState) : Bool :=
  s.by_seq.all (fun p => decide (p.1 < s.counter)) &&
  s.by_uid.all (fun p =>
    match alookup s.by_uid p.1 with
    | some b =>
        decide (b.uid = p.1) &&
        decide (alookup s.by_seq b.seq_id = some b) &&
        decide (b.seq_id < s.counter)
    | none => true)

/-- The happy-path transition events in workflow order. -/
def happyEvents : List EventType :=
  [RFID_READ, SEQ_ASSIGNED, XRF_REPORT_ACCEPTED, SLOT_ASSIGNED,
   STORAGE_CONFIRMED]

/-- Position of a state on the happy path. -/
def stateIdx : AssetState → Nat
  | UNREGISTERED => 0
  | RFID_VERIFIED => 1
  | SEQ_BOUND => 2
  | XRF_VERIFIED => 3
  | SLOT_BOUND => 4
  | STORED => 5

/-- The k-th state of the happy path. -/
def idxState : Nat → AssetState
  | 0 => UNREGISTERED
  | 1 => RFID_VERIFIED
  | 2 => SEQ_BOUND
  | 3 => XRF_VERIFIED
  | 4 => SLOT_BOUND
  | _ => STORED

/-- The k-th happy-path event. -/
def happyEventAt : Nat → EventType
  | 0 => RFID_READ
  | 1 => SEQ_ASSIGNED
  | 2 => XRF_REPORT_ACCEPTED
  | 3 => SLOT_ASSIGNED
  | _ => STORAGE_CONFIRMED

/-- Transition events = the five workflow events (not motion/tamper). -/
def isTransition (e : EventType) : Bool :=
  !nonTransitionEvent e

/-- The transition events of a decision list that were ACCEPTed for a given
asset, in order. -/
def acceptedFor (uid : String) (ds : List EnforcementDecision) :
    List EventType :=
  (ds.filter (fun d =>
    decide (d.asset_id = uid) && decide (d.decision = ACCEPT) &&
    isTransition d.event)).map (fun d => d.event)

/-- Concrete manager state: fresh, `start_counter = 1`,
`validity_minutes = 20`. -/
def exS : SeqState :=
  { counter := 1, validity := 20, by_uid := [], by_seq := [] }

/-- Concrete binding issued from `exS` for uid "A" at time 0. -/
def exB : SeqBinding :=
  { uid := "A", seq_id := 1, issued_at := 0, expires_at := 20, used := false }

/-- Concrete manager state after `issue exS "A" 0`. -/
def exS1 : SeqState :=
  { counter := 2, validity := 20, by_uid := [("A", exB)], by_seq := [(1, exB)] }

/-- The binding `exB` once consumed. -/
def exBused : SeqBinding :=
  { uid := "A", seq_id := 1, issued_at := 0, expires_at := 20, used := true }

/-- Concrete manager state after `mark_used exS1 "A" 1`. -/
def exS2 : SeqState :=
  { counter := 2, validity := 20,
    by_uid := [("A", exBused), ("A", exB)],
    by_seq := [(1, exBused), (1, exB)] }

/-- Concrete manager state after re-issuing for "A" at time 5 once `exB`
has been consumed: a fresh binding with seq_id 2 is allocated while the
used binding stays in the `by_seq` index. -/
def exS3 : SeqState := allocState exS2 "A" 5

/-- Concrete engine state: uid "A" is SEQ_BOUND holding binding `exB`. -/
def exEngineBound : EngineState :=
  { seq := exS1,
    fsms := fun u => if u = "A" then SEQ_BOUND else UNREGISTERED }

/-- Concrete replay scenario, step 1: fresh engine, RFID read at time 0. -/
def c1r1 : EnforcementDecision × EngineState :=
  handle_rfid_read (initEngine exS) "UID123" "GW01" none 0

/-- Concrete replay scenario, step 2: SeqID request at time 0 (the handler
provably returns a decision here; the `getD` fallback is inert). -/
def c1r2 : EnforcementDecision × EngineState :=
  (handle_seq_request c1r1.2 "UID123" none 0).getD c1r1

/-- Concrete replay scenario, step 3: valid verification report at time 1. -/
def c1r3 : EnforcementDecision × EngineState :=
  handle_xrf_report c1r2.2 "UID123" 1 100 10 true "PC01" none none 1

/-- Concrete replay scenario, step 4: the identical verification report
re-presented at time 2. -/
def c1r4 : EnforcementDecision × EngineState :=
  handle_xrf_report c1r3.2 "UID123" 1 100 10 true "PC01" none none 2

/-- Concrete sanity-rejected verification report: purity 98 below the
default minimum 99, from `exEngineBound` at time 1. -/
def c5r : EnforcementDecision × EngineState :=
  handle_xrf_report exEngineBound "A" 1 98 10 true "PC01" none none 1

/-- Concrete accepted verification report from `exEngineBound` at time 1. -/
def c4r : EnforcementDecision × EngineState :=
  handle_xrf_report exEngineBound "A" 1 100 10 true "PC01" none none 1

/-! Theorems.  General lemmas about the embedded operations first, then one
theorem per specification claim. -/

/-- Reading a UID's state after storing one. -/
theorem stateOf_setFsm (st : EngineState) (uid : String) (a : AssetState)
    (u : String) :
    (st.setFsm uid a).stateOf u = if u = uid then a else st.stateOf u := rfl

/-- Storing an FSM state leaves the manager untouched. -/
theorem setFsm_seq (st : EngineState) (uid : String) (a : AssetState) :
    (st.setFsm uid a).seq = st.seq := rfl

/-- State projection of an engine-state literal. -/
theorem stateOf_mk (s : SeqState) (f : String → AssetState) (u : String) :
    (EngineState.mk s f).stateOf u = f u := rfl

/-- A successful `issue` call implies the uid was not blank. -/
theorem issue_some_not_blank {s : SeqState} {uid : String} {t : Int}
    {r : SeqBinding × SeqState} (h : issue s uid t = some r) :
    blankUid uid = false := by
  by_cases hb : blankUid uid
  · simp [issue, hb] at h
  · simpa using hb

/-- `issue` returns an active binding unchanged, allocating nothing. -/
theorem issue_of_active {s : SeqState} {uid : String} {t : Int}
    {e : SeqBinding} (hb : blankUid uid = false)
    (hl : alookup s.by_uid uid = some e)
    (ha : (!is_expired e t && !e.used) = true) :
    issue s uid t = some (e, s) := by
  simp [issue, hb, hl, ha]

/-- A successful `issue` either returned an active existing binding with the
state untouched, or allocated the fresh binding. -/
theorem issue_cases {s : SeqState} {uid : String} {t : Int}
    {b : SeqBinding} {s' : SeqState} (h : issue s uid t = some (b, s')) :
    (∃ e, alookup s.by_uid uid = some e ∧
      (!is_expired e t && !e.used) = true ∧ b = e ∧ s' = s) ∨
    (b = freshBinding s uid t ∧ s' = allocState s uid t) := by
  have hb := issue_some_not_blank h
  unfold issue at h
  simp only [hb, Bool.false_eq_true, if_false] at h
  cases hl : alookup s.by_uid uid with
  | some e =>
    simp only [hl] at h
    by_cases ha : (!is_expired e t && !e.used) = true
    · left
      simp only [ha, if_true, Option.some.injEq, Prod.mk.injEq] at h
      exact ⟨e, rfl, ha, h.1.symm, h.2.symm⟩
    · right
      rw [if_neg ha] at h
      simp only [Option.some.injEq, Prod.mk.injEq] at h
      exact ⟨h.1.symm, h.2.symm⟩
  | none =>
    simp only [hl, Option.some.injEq, Prod.mk.injEq] at h
    exact Or.inr ⟨h.1.symm, h.2.symm⟩

/-- After an allocation the freshly stored binding is the current one. -/
theorem alookup_allocState (s : SeqState) (uid : String) (t : Int) :
    alookup (allocState s uid t).by_uid uid = some (freshBinding s uid t) := by
  simp [allocState, alookup]

/-- A freshly allocated binding is active at its issue time. -/
theorem freshBinding_active (s : SeqState) (uid : String) (t : Int)
    (hv : 0 ≤ s.validity) :
    (!is_expired (freshBinding s uid t) t &&
      !(freshBinding s uid t).used) = true := by
  simp [freshBinding, is_expired]
  omega

/-- Unfolding lemma for association-list lookup on a cons cell. -/
theorem alookup_cons {α β : Type} [DecidableEq α] (p : α × β)
    (l : List (α × β)) (k : α) :
    alookup (p :: l) k = if p.1 = k then some p.2 else alookup l k := rfl

/-- A successful lookup finds an entry of the list. -/
theorem alookup_mem {α β : Type} [DecidableEq α] {l : List (α × β)} {k : α}
    {v : β} (h : alookup l k = some v) : (k, v) ∈ l := by
  induction l with
  | nil => simp [alookup] at h
  | cons p rest ih =>
    rw [alookup_cons] at h
    by_cases hp : p.1 = k
    · rw [if_pos hp] at h
      cases p with
      | mk a c =>
        simp only [Option.some.injEq] at h
        simp_all
    · rw [if_neg hp] at h
      exact List.mem_cons_of_mem _ (ih h)

/-- Every key of the `by_seq` index was allocated below the counter. -/
theorem seqInv_seq_lt {s : SeqState} {k : Int} {b : SeqBinding}
    (h : seqInv s = true) (hk : alookup s.by_seq k = some b) :
    k < s.counter := by
  simp only [seqInv, Bool.and_eq_true, List.all_eq_true] at h
  have := h.1 (k, b) (alookup_mem hk)
  simpa using this

/-- The current binding of a uid carries that uid, sits in `by_seq` under
its own seq_id, and its seq_id is below the counter. -/
theorem seqInv_uid {s : SeqState} {uid : String} {b : SeqBinding}
    (h : seqInv s = true) (hl : alookup s.by_uid uid = some b) :
    b.uid = uid ∧ alookup s.by_seq b.seq_id = some b ∧
      b.seq_id < s.counter := by
  simp only [seqInv, Bool.and_eq_true, List.all_eq_true] at h
  have h3 := h.2 (uid, b) (alookup_mem hl)
  split at h3
  next b' heq =>
    rw [hl] at heq
    simp only [Option.some.injEq] at heq
    subst heq
    simp at h3
    exact ⟨h3.1.1, h3.1.2, h3.2⟩
  next heq =>
    rw [hl] at heq
    cases heq

/-- Entry form of the first invariant clause. -/
theorem seqInv_mem_lt {s : SeqState} (h : seqInv s = true) :
    ∀ p ∈ s.by_seq, p.1 < s.counter := by
  simp only [seqInv, Bool.and_eq_true, List.all_eq_true] at h
  intro p hp
  simpa using h.1 p hp

/-- Introduction rule for `seqInv` from its two lookup-level clauses. -/
theorem seqInv_of_lookup (s : SeqState)
    (h1 : ∀ p ∈ s.by_seq, p.1 < s.counter)
    (h2 : ∀ k b, alookup s.by_uid k = some b →
      b.uid = k ∧ alookup s.by_seq b.seq_id = some b ∧
        b.seq_id < s.counter) :
    seqInv s = true := by
  simp only [seqInv, Bool.and_eq_true, List.all_eq_true]
  constructor
  · intro p hp
    simpa using h1 p hp
  · intro p _
    cases hlk : alookup s.by_uid p.1 with
    | none => simp
    | some b =>
      obtain ⟨ha, hb, hc⟩ := h2 p.1 b hlk
      simp [ha, hb, hc]

/-- Allocation preserves the manager invariant. -/
theorem seqInv_alloc {s : SeqState} {uid : String} {t : Int}
    (h : seqInv s = true) : seqInv (allocState s uid t) = true := by
  apply seqInv_of_lookup
  · intro p hp
    simp only [allocState] at hp ⊢
    rcases List.mem_cons.mp hp with rfl | hp'
    · simp
    · have := seqInv_mem_lt h p hp'
      omega
  · intro k b hlk
    simp only [allocState, alookup_cons] at hlk ⊢
    by_cases hk : uid = k
    · rw [if_pos hk] at hlk
      simp only [Option.some.injEq] at hlk
      subst hlk
      refine ⟨hk ▸ rfl, ?_, ?_⟩
      · simp [freshBinding]
      · simp [freshBinding]
    · rw [if_neg hk] at hlk
      obtain ⟨hu, hs, hlt⟩ := seqInv_uid h hlk
      refine ⟨hu, ?_, by omega⟩
      have hne : ¬ (s.counter = b.seq_id) := by omega
      rw [if_neg hne]
      exact hs

/-- Consumption (`mark_used`) preserves the manager invariant. -/
theorem seqInv_mark {s : SeqState} {uid : String} {q : Int}
    (h : seqInv s = true) : seqInv (mark_used s uid q).2 = true := by
  unfold mark_used
  cases hl : alookup s.by_uid uid with
  | none => simpa using h
  | some b =>
    by_cases hq : b.seq_id ≠ q
    · simp only [hl, if_pos hq]
      simpa using h
    · push_neg at hq
      simp only [hl, hq, ne_eq, not_true_eq_false, if_false]
      obtain ⟨hu, hs, hlt⟩ := seqInv_uid h hl
      apply seqInv_of_lookup
      · intro p hp
        rcases List.mem_cons.mp hp with rfl | hp'
        · have hqlt : q < s.counter := by omega
          simpa using hqlt
        · exact seqInv_mem_lt h p hp'
      · intro k b' hlk
        rw [alookup_cons] at hlk
        by_cases hk : uid = k
        · rw [if_pos hk] at hlk
          simp only [Option.some.injEq] at hlk
          subst hlk
          refine ⟨hk ▸ hu, ?_, ?_⟩
          · rw [alookup_cons]
            simp [hq]
          · have hqlt2 : q < s.counter := by omega
            simpa using hqlt2
        · rw [if_neg hk] at hlk
          obtain ⟨hu', hs', hlt'⟩ := seqInv_uid h hlk
          refine ⟨hu', ?_, hlt'⟩
          rw [alookup_cons]
          have hbq : ¬ (q = b'.seq_id) := by
            intro hcontra
            rw [← hcontra, ← hq] at hs'
            rw [hs] at hs'
            simp only [Option.some.injEq] at hs'
            subst hs'
            exact hk (hu ▸ hu')
          rw [if_neg hbq]
          exact hs'

/-- Field values of the RFID-read decision. -/
theorem rfid_fields (st : EngineState) (uid gw : String) (ts : Option Int)
    (w : Int) :
    (handle_rfid_read st uid gw ts w).1.asset_id = uid ∧
    (handle_rfid_read st uid gw ts w).1.event = RFID_READ ∧
    (handle_rfid_read st uid gw ts w).2.seq = st.seq := by
  cases hstate : st.stateOf uid <;>
    simp [handle_rfid_read, hstate, FSM.apply, nonTransitionEvent, _ALLOWED,
          _accept, _reject, setFsm_seq]

/-- An accepted RFID read happened at UNREGISTERED and moved the asset to
RFID_VERIFIED, touching no other asset. -/
theorem rfid_accept_char (st : EngineState) (uid gw : String)
    (ts : Option Int) (w : Int)
    (hacc : (handle_rfid_read st uid gw ts w).1.decision = ACCEPT) :
    st.stateOf uid = UNREGISTERED ∧
    (handle_rfid_read st uid gw ts w).1.prev_state = UNREGISTERED ∧
    (handle_rfid_read st uid gw ts w).1.next_state = RFID_VERIFIED ∧
    (handle_rfid_read st uid gw ts w).2.stateOf uid = RFID_VERIFIED ∧
    (∀ u, u ≠ uid →
      (handle_rfid_read st uid gw ts w).2.stateOf u = st.stateOf u) := by
  cases hstate : st.stateOf uid
  case UNREGISTERED =>
    refine ⟨rfl, ?_, ?_, ?_, ?_⟩
    · simp [handle_rfid_read, hstate, FSM.apply, nonTransitionEvent,
            _ALLOWED, _accept]
    · simp [handle_rfid_read, hstate, FSM.apply, nonTransitionEvent,
            _ALLOWED, _accept]
    · simp only [handle_rfid_read, hstate, FSM.apply, nonTransitionEvent,
            _ALLOWED, _accept]
      simp [stateOf_setFsm]
    · intro u hu
      simp only [handle_rfid_read, hstate, FSM.apply, nonTransitionEvent,
            _ALLOWED, _accept]
      simp [stateOf_setFsm, hu]
  all_goals
    exfalso
    simp [handle_rfid_read, hstate, FSM.apply, nonTransitionEvent, _ALLOWED,
          _reject] at hacc

/-- A non-accepted RFID read is a REJECT that changes no state. -/
theorem rfid_not_accept (st : EngineState) (uid gw : String)
    (ts : Option Int) (w : Int)
    (hn : (handle_rfid_read st uid gw ts w).1.decision ≠ ACCEPT) :
    (handle_rfid_read st uid gw ts w).1.decision = REJECT ∧
    (handle_rfid_read st uid gw ts w).1.next_state =
      (handle_rfid_read st uid gw ts w).1.prev_state ∧
    (∀ u, (handle_rfid_read st uid gw ts w).2.stateOf u = st.stateOf u) := by
  cases hstate : st.stateOf uid
  case UNREGISTERED =>
    exfalso
    apply hn
    simp [handle_rfid_read, hstate, FSM.apply, nonTransitionEvent, _ALLOWED,
          _accept]
  all_goals refine ⟨?_, ?_, ?_⟩
  all_goals
    try (simp [handle_rfid_read, hstate, FSM.apply, nonTransitionEvent,
               _ALLOWED, _reject])
  all_goals
    intro u
    by_cases hu : u = uid <;> simp [stateOf_setFsm, hu, hstate]

/-- SeqID request at the wrong state: rejected, nothing issued. -/
theorem seqreq_gate_fail (st : EngineState) (uid : String) (ts : Option Int)
    (w : Int) (hg : st.stateOf uid ≠ RFID_VERIFIED) :
    handle_seq_request st uid ts w =
      some (_reject_simple uid (st.stateOf uid) SEQ_ASSIGNED
        "STATE_NOT_RFID_VERIFIED" [("ts", toString (ts.getD w))] w, st) := by
  simp [handle_seq_request, hg]

/-- SeqID request propagates the blank-uid error from `issue`. -/
theorem seqreq_none (st : EngineState) (uid : String) (ts : Option Int)
    (w : Int) (hg : st.stateOf uid = RFID_VERIFIED)
    (hiss : issue st.seq uid w = none) :
    handle_seq_request st uid ts w = none := by
  simp [handle_seq_request, hg, hiss]

/-- SeqID request in RFID_VERIFIED with a successful issue: the accepted
decision and the advanced engine state, explicitly. -/
theorem seqreq_issue (st : EngineState) (uid : String) (ts : Option Int)
    (w : Int) (binding : SeqBinding) (s1 : SeqState)
    (hg : st.stateOf uid = RFID_VERIFIED)
    (hiss : issue st.seq uid w = some (binding, s1)) :
    handle_seq_request st uid ts w =
      some ({ decision := ACCEPT, reason := "SEQ_ISSUED", asset_id := uid,
              prev_state := RFID_VERIFIED, next_state := SEQ_BOUND,
              event := SEQ_ASSIGNED, timestamp_utc := ts.getD w,
              details := [("seq_id", toString binding.seq_id),
                          ("issued_at", toString binding.issued_at),
                          ("expires_at", toString binding.expires_at)] },
            ({ st with seq := s1 } : EngineState).setFsm uid SEQ_BOUND) := by
  simp [handle_seq_request, hg, hiss, FSM.apply, nonTransitionEvent,
        _ALLOWED]

/-- `issue` returns a value whenever the uid is not blank. -/
theorem issue_isSome (s : SeqState) (uid : String) (t : Int)
    (hb : blankUid uid = false) : (issue s uid t).isSome = true := by
  unfold issue
  simp only [hb, Bool.false_eq_true, if_false]
  cases alookup s.by_uid uid with
  | none => rfl
  | some e =>
    by_cases ha : (!is_expired e t && !e.used) = true <;> simp [ha]

/-- The SeqID request handler returns a decision for any non-blank uid. -/
theorem seqreq_isSome (st : EngineState) (uid : String) (ts : Option Int)
    (w : Int) (hb : blankUid uid = false) :
    (handle_seq_request st uid ts w).isSome = true := by
  by_cases hg : st.stateOf uid = RFID_VERIFIED
  · have hs := issue_isSome st.seq uid w hb
    cases hiss : issue st.seq uid w with
    | none => rw [hiss] at hs; cases hs
    | some r =>
      cases r with
      | mk binding s1 => rw [seqreq_issue st uid ts w binding s1 hg hiss]; rfl
  · rw [seqreq_gate_fail st uid ts w hg]; rfl

/-- A non-accepted SeqID request is a REJECT leaving the engine unchanged. -/
theorem seqreq_reject_char (st : EngineState) (uid : String)
    (ts : Option Int) (w : Int) (d : EnforcementDecision)
    (st1 : EngineState)
    (hsome : handle_seq_request st uid ts w = some (d, st1))
    (hrej : d.decision ≠ ACCEPT) :
    d.decision = REJECT ∧ st1 = st ∧ d.next_state = d.prev_state := by
  by_cases hg : st.stateOf uid = RFID_VERIFIED
  · exfalso
    cases hiss : issue st.seq uid w with
    | none => rw [seqreq_none st uid ts w hg hiss] at hsome; cases hsome
    | some r =>
      cases r with
      | mk binding s1 =>
        rw [seqreq_issue st uid ts w binding s1 hg hiss] at hsome
        simp only [Option.some.injEq, Prod.mk.injEq] at hsome
        exact hrej (by rw [← hsome.1])
  · rw [seqreq_gate_fail st uid ts w hg] at hsome
    simp only [Option.some.injEq, Prod.mk.injEq] at hsome
    obtain ⟨hd, hst⟩ := hsome
    subst hd
    subst hst
    exact ⟨rfl, rfl, rfl⟩

/-- An accepted SeqID request happened at RFID_VERIFIED and moved the asset
to SEQ_BOUND, touching no other asset's state. -/
theorem seqreq_accept_char (st : EngineState) (uid : String)
    (ts : Option Int) (w : Int) (d : EnforcementDecision)
    (st1 : EngineState)
    (hsome : handle_seq_request st uid ts w = some (d, st1))
    (hacc : d.decision = ACCEPT) :
    st.stateOf uid = RFID_VERIFIED ∧ d.prev_state = RFID_VERIFIED ∧
    d.next_state = SEQ_BOUND ∧ st1.stateOf uid = SEQ_BOUND ∧
    (∀ u, u ≠ uid → st1.stateOf u = st.stateOf u) := by
  by_cases hg : st.stateOf uid = RFID_VERIFIED
  · cases hiss : issue st.seq uid w with
    | none => rw [seqreq_none st uid ts w hg hiss] at hsome; cases hsome
    | some r =>
      cases r with
      | mk binding s1 =>
        rw [seqreq_issue st uid ts w binding s1 hg hiss] at hsome
        simp only [Option.some.injEq, Prod.mk.injEq] at hsome
        obtain ⟨hd, hst⟩ := hsome
        subst hd
        subst hst
        refine ⟨hg, rfl, rfl, by simp [stateOf_setFsm], ?_⟩
        intro u hu
        simp [EngineState.stateOf, EngineState.setFsm, hu]
  · exfalso
    rw [seqreq_gate_fail st uid ts w hg] at hsome
    simp only [Option.some.injEq, Prod.mk.injEq] at hsome
    obtain ⟨hd, -⟩ := hsome
    rw [← hd] at hacc
    cases hacc

/-- Field values of the SeqID-request decision. -/
theorem seqreq_fields (st : EngineState) (uid : String) (ts : Option Int)
    (w : Int) (d : EnforcementDecision) (st1 : EngineState)
    (hsome : handle_seq_request st uid ts w = some (d, st1)) :
    d.asset_id = uid ∧ d.event = SEQ_ASSIGNED := by
  by_cases hg : st.stateOf uid = RFID_VERIFIED
  · cases hiss : issue st.seq uid w with
    | none => rw [seqreq_none st uid ts w hg hiss] at hsome; cases hsome
    | some r =>
      cases r with
      | mk binding s1 =>
        rw [seqreq_issue st uid ts w binding s1 hg hiss] at hsome
        simp only [Option.some.injEq, Prod.mk.injEq] at hsome
        obtain ⟨hd, -⟩ := hsome
        subst hd
        exact ⟨rfl, rfl⟩
  · rw [seqreq_gate_fail st uid ts w hg] at hsome
    simp only [Option.some.injEq, Prod.mk.injEq] at hsome
    obtain ⟨hd, -⟩ := hsome
    subst hd
    exact ⟨rfl, rfl⟩

/-- Verification report in SEQ_BOUND with an invalid identity: rejected as
SEQ_INVALID:<validate reason>, before any sanity threshold is consulted. -/
theorem xrf_seq_invalid (st : EngineState) (uid : String) (sq : Int)
    (p : ℚ) (sc : Int) (c : Bool) (pc : String) (ts : Option Int)
    (th : Option Thresholds) (wall : Int)
    (hg : st.stateOf uid = SEQ_BOUND)
    (hv : validate st.seq uid sq wall ≠ "OK") :
    handle_xrf_report st uid sq p sc c pc ts th wall =
      (_reject_simple uid SEQ_BOUND XRF_REPORT_ACCEPTED
        ("SEQ_INVALID:" ++ validate st.seq uid sq wall)
        [("pc_id", pc), ("seq_id", toString sq)] wall, st) := by
  simp [handle_xrf_report, hg, hv]

/-- An accepted verification report happened at SEQ_BOUND with a valid
identity; it moved the asset to XRF_VERIFIED and consumed the binding. -/
theorem xrf_accept_char (st : EngineState) (uid : String) (sq : Int)
    (p : ℚ) (sc : Int) (c : Bool) (pc : String) (ts : Option Int)
    (th : Option Thresholds) (wall : Int)
    (hacc : (handle_xrf_report st uid sq p sc c pc ts th wall).1.decision =
      ACCEPT) :
    st.stateOf uid = SEQ_BOUND ∧
    validate st.seq uid sq wall = "OK" ∧
    (handle_xrf_report st uid sq p sc c pc ts th wall).2.stateOf uid =
      XRF_VERIFIED ∧
    (∀ u, u ≠ uid →
      (handle_xrf_report st uid sq p sc c pc ts th wall).2.stateOf u =
        st.stateOf u) ∧
    (handle_xrf_report st uid sq p sc c pc ts th wall).2.seq =
      (mark_used st.seq uid sq).2 ∧
    (handle_xrf_report st uid sq p sc c pc ts th wall).1.prev_state =
      SEQ_BOUND ∧
    (handle_xrf_report st uid sq p sc c pc ts th wall).1.next_state =
      XRF_VERIFIED := by
  by_cases hg : st.stateOf uid = SEQ_BOUND
  case neg =>
    exfalso
    simp [handle_xrf_report, hg, _reject_simple] at hacc
  case pos =>
    by_cases hv : validate st.seq uid sq wall = "OK"
    case neg =>
      exfalso
      simp [handle_xrf_report, hg, hv, _reject_simple] at hacc
    case pos =>
      by_cases hp : p < purity_min_of th
      · exfalso
        simp [handle_xrf_report, hg, hv, hp, _reject_simple] at hacc
      · by_cases hsc : sc < scan_min_of th
        · exfalso
          simp [handle_xrf_report, hg, hv, hp, hsc, _reject_simple] at hacc
        · by_cases hc : (contact_required_of th && !c) = true
          · exfalso
            simp [handle_xrf_report, hg, hv, hp, hsc, hc,
                  _reject_simple] at hacc
          · refine ⟨hg, hv, ?_, ?_, ?_, ?_, ?_⟩
            · simp [handle_xrf_report, hg, hv, hp, hsc, hc, FSM.apply,
                    nonTransitionEvent, _ALLOWED, _accept]
              simp [EngineState.stateOf, EngineState.setFsm]
            · intro u hu
              simp [handle_xrf_report, hg, hv, hp, hsc, hc, FSM.apply,
                    nonTransitionEvent, _ALLOWED, _accept]
              simp [EngineState.stateOf, EngineState.setFsm, hu]
            · simp [handle_xrf_report, hg, hv, hp, hsc, hc, FSM.apply,
                    nonTransitionEvent, _ALLOWED, _accept, stateOf_setFsm,
                    setFsm_seq]
            · simp [handle_xrf_report, hg, hv, hp, hsc, hc, FSM.apply,
                    nonTransitionEvent, _ALLOWED, _accept]
            · simp [handle_xrf_report, hg, hv, hp, hsc, hc, FSM.apply,
                    nonTransitionEvent, _ALLOWED, _accept]

theorem xrf_fields (st : EngineState) (uid : String) (sq : Int) (p : ℚ)
    (sc : Int) (c : Bool) (pc : String) (ts : Option Int)
    (th : Option Thresholds) (wall : Int) :
    (handle_xrf_report st uid sq p sc c pc ts th wall).1.asset_id = uid ∧
    (handle_xrf_report st uid sq p sc c pc ts th wall).1.event =
      XRF_REPORT_ACCEPTED := by
  by_cases hg : st.stateOf uid = SEQ_BOUND
  case neg => simp [handle_xrf_report, hg, _reject_simple]
  case pos =>
    by_cases hv : validate st.seq uid sq wall = "OK"
    case neg => simp [handle_xrf_report, hg, hv, _reject_simple]
    case pos =>
      by_cases hp : p < purity_min_of th
      · simp [handle_xrf_report, hg, hv, hp, _reject_simple]
      · by_cases hsc : sc < scan_min_of th
        · simp [handle_xrf_report, hg, hv, hp, hsc, _reject_simple]
        · by_cases hc : (contact_required_of th && !c) = true
          · simp [handle_xrf_report, hg, hv, hp, hsc, hc, _reject_simple]
          · simp [handle_xrf_report, hg, hv, hp, hsc, hc, FSM.apply,
                  nonTransitionEvent, _ALLOWED, _accept]

theorem xrf_not_accept (st : EngineState) (uid : String) (sq : Int) (p : ℚ)
    (sc : Int) (c : Bool) (pc : String) (ts : Option Int)
    (th : Option Thresholds) (wall : Int)
    (hn : (handle_xrf_report st uid sq p sc c pc ts th wall).1.decision ≠
      ACCEPT) :
    (handle_xrf_report st uid sq p sc c pc ts th wall).1.decision =
      REJECT ∧
    (handle_xrf_report st uid sq p sc c pc ts th wall).2 = st ∧
    (handle_xrf_report st uid sq p sc c pc ts th wall).1.next_state =
      (handle_xrf_report st uid sq p sc c pc ts th wall).1.prev_state := by
  by_cases hg : st.stateOf uid = SEQ_BOUND
  case neg => simp [handle_xrf_report, hg, _reject_simple]
  case pos =>
    by_cases hv : validate st.seq uid sq wall = "OK"
    case neg => simp [handle_xrf_report, hg, hv, _reject_simple]
    case pos =>
      by_cases hp : p < purity_min_of th
      · simp [handle_xrf_report, hg, hv, hp, _reject_simple]
      · by_cases hsc : sc < scan_min_of th
        · simp [handle_xrf_report, hg, hv, hp, hsc, _reject_simple]
        · by_cases hc : (contact_required_of th && !c) = true
          · simp [handle_xrf_report, hg, hv, hp, hsc, hc, _reject_simple]
          · exfalso
            apply hn
            simp [handle_xrf_report, hg, hv, hp, hsc, hc, FSM.apply,
                  nonTransitionEvent, _ALLOWED, _accept]

theorem slot_fields (st : EngineState) (uid slot : String) (ts : Option Int)
    (w : Int) :
    (handle_slot_assigned st uid slot ts w).1.asset_id = uid ∧
    (handle_slot_assigned st uid slot ts w).1.event = SLOT_ASSIGNED ∧
    (handle_slot_assigned st uid slot ts w).2.seq = st.seq := by
  by_cases hg : st.stateOf uid = XRF_VERIFIED <;>
    simp [handle_slot_assigned, hg, FSM.apply, nonTransitionEvent, _ALLOWED,
          _accept, _reject_simple, setFsm_seq]

theorem slot_accept_char (st : EngineState) (uid slot : String)
    (ts : Option Int) (w : Int)
    (hacc : (handle_slot_assigned st uid slot ts w).1.decision = ACCEPT) :
    st.stateOf uid = XRF_VERIFIED ∧
    (handle_slot_assigned st uid slot ts w).1.prev_state = XRF_VERIFIED ∧
    (handle_slot_assigned st uid slot ts w).1.next_state = SLOT_BOUND ∧
    (handle_slot_assigned st uid slot ts w).2.stateOf uid = SLOT_BOUND ∧
    (∀ u, u ≠ uid →
      (handle_slot_assigned st uid slot ts w).2.stateOf u = st.stateOf u) := by
  by_cases hg : st.stateOf uid = XRF_VERIFIED
  case neg =>
    exfalso
    simp [handle_slot_assigned, hg, _reject_simple] at hacc
  case pos =>
    refine ⟨hg, ?_, ?_, ?_, ?_⟩
    · simp [handle_slot_assigned, hg, FSM.apply, nonTransitionEvent,
            _ALLOWED, _accept]
    · simp [handle_slot_assigned, hg, FSM.apply, nonTransitionEvent,
            _ALLOWED, _accept]
    · simp only [handle_slot_assigned, hg, FSM.apply, nonTransitionEvent,
            _ALLOWED, _accept]
      simp [stateOf_setFsm]
    · intro u hu
      simp only [handle_slot_assigned, hg, FSM.apply, nonTransitionEvent,
            _ALLOWED, _accept]
      simp [stateOf_setFsm, hu]

theorem slot_not_accept (st : EngineState) (uid slot : String)
    (ts : Option Int) (w : Int)
    (hn : (handle_slot_assigned st uid slot ts w).1.decision ≠ ACCEPT) :
    (handle_slot_assigned st uid slot ts w).1.decision = REJECT ∧
    (handle_slot_assigned st uid slot ts w).2 = st ∧
    (handle_slot_assigned st uid slot ts w).1.next_state =
      (handle_slot_assigned st uid slot ts w).1.prev_state := by
  by_cases hg : st.stateOf uid = XRF_VERIFIED
  case neg => simp [handle_slot_assigned, hg, _reject_simple]
  case pos =>
    exfalso
    apply hn
    simp [handle_slot_assigned, hg, FSM.apply, nonTransitionEvent, _ALLOWED,
          _accept]

theorem storage_fields (st : EngineState) (uid slot : String)
    (ts : Option Int) (w : Int) :
    (handle_storage_confirmed st uid slot ts w).1.asset_id = uid ∧
    (handle_storage_confirmed st uid slot ts w).1.event =
      STORAGE_CONFIRMED ∧
    (handle_storage_confirmed st uid slot ts w).2.seq = st.seq := by
  by_cases hg : st.stateOf uid = SLOT_BOUND <;>
    simp [handle_storage_confirmed, hg, FSM.apply, nonTransitionEvent,
          _ALLOWED, _accept, _reject_simple, setFsm_seq]

theorem storage_accept_char (st : EngineState) (uid slot : String)
    (ts : Option Int) (w : Int)
    (hacc : (handle_storage_confirmed st uid slot ts w).1.decision =
      ACCEPT) :
    st.stateOf uid = SLOT_BOUND ∧
    (handle_storage_confirmed st uid slot ts w).1.prev_state = SLOT_BOUND ∧
    (handle_storage_confirmed st uid slot ts w).1.next_state = STORED ∧
    (handle_storage_confirmed st uid slot ts w).2.stateOf uid = STORED ∧
    (∀ u, u ≠ uid →
      (handle_storage_confirmed st uid slot ts w).2.stateOf u =
        st.stateOf u) := by
  by_cases hg : st.stateOf uid = SLOT_BOUND
  case neg =>
    exfalso
    simp [handle_storage_confirmed, hg, _reject_simple] at hacc
  case pos =>
    refine ⟨hg, ?_, ?_, ?_, ?_⟩
    · simp [handle_storage_confirmed, hg, FSM.apply, nonTransitionEvent,
            _ALLOWED, _accept]
    · simp [handle_storage_confirmed, hg, FSM.apply, nonTransitionEvent,
            _ALLOWED, _accept]
    · simp only [handle_storage_confirmed, hg, FSM.apply,
            nonTransitionEvent, _ALLOWED, _accept]
      simp [stateOf_setFsm]
    · intro u hu
      simp only [handle_storage_confirmed, hg, FSM.apply,
            nonTransitionEvent, _ALLOWED, _accept]
      simp [stateOf_setFsm, hu]

theorem storage_not_accept (st : EngineState) (uid slot : String)
    (ts : Option Int) (w : Int)
    (hn : (handle_storage_confirmed st uid slot ts w).1.decision ≠
      ACCEPT) :
    (handle_storage_confirmed st uid slot ts w).1.decision = REJECT ∧
    (handle_storage_confirmed st uid slot ts w).2 = st ∧
    (handle_storage_confirmed st uid slot ts w).1.next_state =
      (handle_storage_confirmed st uid slot ts w).1.prev_state := by
  by_cases hg : st.stateOf uid = SLOT_BOUND
  case neg => simp [handle_storage_confirmed, hg, _reject_simple]
  case pos =>
    exfalso
    apply hn
    simp [handle_storage_confirmed, hg, FSM.apply, nonTransitionEvent,
          _ALLOWED, _accept]

theorem motion_char (st : EngineState) (uid slot : String)
    (ts : Option Int) (w : Int) :
    (handle_slot_motion st uid slot ts w).1.decision = ALERT ∧
    (handle_slot_motion st uid slot ts w).1.asset_id = uid ∧
    (handle_slot_motion st uid slot ts w).1.event = SLOT_MOTION ∧
    (handle_slot_motion st uid slot ts w).2.seq = st.seq ∧
    (∀ u, (handle_slot_motion st uid slot ts w).2.stateOf u =
      st.stateOf u) := by
  refine ⟨rfl, rfl, rfl, rfl, ?_⟩
  intro u
  by_cases hu : u = uid <;>
    simp [handle_slot_motion, FSM.apply, nonTransitionEvent,
          EngineState.stateOf, EngineState.setFsm, hu]

/-- `validate` returns one of its five documented reason strings. -/
theorem validate_cases (s : SeqState) (uid : String) (q t : Int) :
    validate s uid q t = "OK" ∨ validate s uid q t = "NO_BINDING_FOR_UID" ∨
    validate s uid q t = "SEQ_MISMATCH" ∨ validate s uid q t = "EXPIRED" ∨
    validate s uid q t = "ALREADY_USED" := by
  unfold validate
  cases alookup s.by_uid uid with
  | none => simp
  | some b =>
    by_cases h1 : b.seq_id ≠ q <;> by_cases h2 : is_expired b t <;>
      by_cases h3 : b.used = true <;> simp [h1, h2, h3]

/-- After a validation that returned OK, consuming the binding leaves it
current, used, and matching, so re-validation answers ALREADY_USED. -/
theorem mark_used_after_OK (s : SeqState) (uid : String) (q t : Int)
    (h : validate s uid q t = "OK") :
    validate (mark_used s uid q).2 uid q t = "ALREADY_USED" ∧
    ∃ b, alookup (mark_used s uid q).2.by_uid uid = some b ∧
      b.used = true ∧ b.seq_id = q := by
  unfold validate at h
  cases hl : alookup s.by_uid uid with
  | none => rw [hl] at h; simp at h
  | some b =>
    rw [hl] at h
    by_cases h1 : b.seq_id ≠ q
    · simp [h1] at h
    · push_neg at h1
      by_cases h2 : is_expired b t
      · simp [h1, h2] at h
      · by_cases h3 : b.used = true
        · simp [h1, h2, h3] at h
        · unfold mark_used
          rw [hl]
          simp only [h1, ne_eq, not_true_eq_false, if_false]
          have h2' : ¬ (b.expires_at < t) := by
            simpa [is_expired] using h2
          constructor
          · simp [validate, alookup_cons, h1, is_expired, h2']
          · have hub : alookup
                ((uid, ({ uid := b.uid, seq_id := q,
                          issued_at := b.issued_at,
                          expires_at := b.expires_at,
                          used := true } : SeqBinding)) :: s.by_uid) uid =
                some { uid := b.uid, seq_id := q,
                       issued_at := b.issued_at,
                       expires_at := b.expires_at, used := true } := by
              rw [alookup_cons]
              simp
            exact ⟨_, hub, rfl, rfl⟩

/-- C3: `validate uid seq_id now` returns OK iff a binding exists for the
uid, its seq_id matches, `now ≤ expires_at` and it is unused; each failure
reason is returned exactly under the documented priority order (missing
binding, then mismatch, then expiry, then already-used).  The embedded
`validate` takes the manager state and returns only a reason string: the
source method performs no mutation. -/
theorem C3_validate_characterization (s : SeqState) (uid : String)
    (seq_id t : Int) :
    (validate s uid seq_id t = "OK" ↔
      ∃ b, alookup s.by_uid uid = some b ∧ b.seq_id = seq_id ∧
        t ≤ b.expires_at ∧ b.used = false) ∧
    (validate s uid seq_id t = "NO_BINDING_FOR_UID" ↔
      alookup s.by_uid uid = none) ∧
    (validate s uid seq_id t = "SEQ_MISMATCH" ↔
      ∃ b, alookup s.by_uid uid = some b ∧ b.seq_id ≠ seq_id) ∧
    (validate s uid seq_id t = "EXPIRED" ↔
      ∃ b, alookup s.by_uid uid = some b ∧ b.seq_id = seq_id ∧
        b.expires_at < t) ∧
    (validate s uid seq_id t = "ALREADY_USED" ↔
      ∃ b, alookup s.by_uid uid = some b ∧ b.seq_id = seq_id ∧
        t ≤ b.expires_at ∧ b.used = true) := by
  unfold validate
  cases h : alookup s.by_uid uid with
  | none => simp [h]
  | some b =>
    by_cases h1 : b.seq_id = seq_id
    · by_cases h2 : is_expired b t
      · have h2' : b.expires_at < t := by simpa [is_expired] using h2
        simp [h, h1, h2, h2']
      · have h2' : t ≤ b.expires_at := by
          simp [is_expired] at h2; omega
        cases hu : b.used
        · simp [h, h1, h2, hu, h2']
        · simp [h, h1, h2, hu, h2']
    · simp [h, h1]

/-- C9: non-transition events (SLOT_MOTION, TAMPER) are accepted by the FSM
in every state with the state unchanged and reason
NON_TRANSITION_EVENT_ACCEPTED, and the engine's motion handler always
returns an ALERT with reason SLOT_MOTION_DETECTED leaving every asset's
state unchanged. -/
theorem C9_non_transition_frame :
    (∀ prev : AssetState,
      FSM.apply prev SLOT_MOTION =
        { accepted := true, prev_state := prev, event := SLOT_MOTION,
          next_state := prev, reason := "NON_TRANSITION_EVENT_ACCEPTED" } ∧
      FSM.apply prev TAMPER =
        { accepted := true, prev_state := prev, event := TAMPER,
          next_state := prev, reason := "NON_TRANSITION_EVENT_ACCEPTED" }) ∧
    (∀ (st : EngineState) (uid slot_id : String) (ts : Option Int)
       (wall : Int),
      (handle_slot_motion st uid slot_id ts wall).1.decision = ALERT ∧
      (handle_slot_motion st uid slot_id ts wall).1.reason =
        "SLOT_MOTION_DETECTED" ∧
      (handle_slot_motion st uid slot_id ts wall).1.next_state =
        (handle_slot_motion st uid slot_id ts wall).1.prev_state ∧
      ∀ u, (handle_slot_motion st uid slot_id ts wall).2.stateOf u =
        st.stateOf u) := by
  constructor
  · intro prev
    exact ⟨rfl, rfl⟩
  · intro st uid slot ts wall
    refine ⟨rfl, rfl, rfl, ?_⟩
    intro u
    by_cases h : u = uid <;>
      simp [handle_slot_motion, FSM.apply, nonTransitionEvent,
            EngineState.stateOf, EngineState.setFsm, h]

/-- C7: issuing twice for the same uid at the same instant, with no
intervening `mark_used` and no expiry, returns the identical binding and
leaves the manager (in particular the counter) unchanged. -/
theorem C7_issue_idempotent (s : SeqState) (uid : String) (t : Int)
    (b : SeqBinding) (s1 : SeqState) (b2 : SeqBinding) (s2 : SeqState)
    (hv : 1 ≤ s.validity)
    (h1 : issue s uid t = some (b, s1))
    (h2 : issue s1 uid t = some (b2, s2)) :
    b2 = b ∧ s2 = s1 ∧ b2.seq_id = b.seq_id ∧ s2.counter = s1.counter := by
  have hb := issue_some_not_blank h1
  rcases issue_cases h1 with ⟨e, hl, ha, rfl, rfl⟩ | ⟨rfl, rfl⟩
  · rw [issue_of_active hb hl ha] at h2
    simp only [Option.some.injEq, Prod.mk.injEq] at h2
    exact ⟨h2.1.symm, h2.2.symm, by rw [h2.1], by rw [h2.2]⟩
  · have hact := freshBinding_active s uid t (by omega)
    rw [issue_of_active hb (alookup_allocState s uid t) hact] at h2
    simp only [Option.some.injEq, Prod.mk.injEq] at h2
    exact ⟨h2.1.symm, h2.2.symm, by rw [h2.1], by rw [h2.2]⟩

/-- Witness for C7 on a concrete run: issuing for "A" at time 0 from a
fresh manager and issuing again returns the same binding and state. -/
theorem C7_issue_idempotent_witness :
    1 ≤ exS.validity ∧ issue exS "A" 0 = some (exB, exS1) ∧
    issue exS1 "A" 0 = some (exB, exS1) ∧
    (exB = exB ∧ exS1 = exS1 ∧ exB.seq_id = exB.seq_id ∧
     exS1.counter = exS1.counter) := by
  refine ⟨by decide, by decide, by decide, ?_⟩
  exact C7_issue_idempotent exS "A" 0 exB exS1 exB exS1 (by decide)
    (by decide) (by decide)

/-- C8: the manager invariant (all stored seq_ids below the counter) holds
initially and is preserved by every operation, and a genuinely fresh
allocation (the state changed) hands out `seq_id = counter`, strictly
greater than every previously allocated seq_id of any uid — so seq_ids are
globally strictly increasing and never reused. -/
theorem C8_seq_monotonic :
    (∀ start validity s, mkSeqIdManager start validity = some s →
      seqInv s = true) ∧
    (∀ s uid t b s', seqInv s = true → issue s uid t = some (b, s') →
      seqInv s' = true) ∧
    (∀ s uid q, seqInv s = true → seqInv (mark_used s uid q).2 = true) ∧
    (∀ s uid t b s', seqInv s = true → issue s uid t = some (b, s') →
      s' = s ∨
      (b.seq_id = s.counter ∧ s'.counter = s.counter + 1 ∧
       ∀ k b₀, alookup s.by_seq k = some b₀ → k < b.seq_id)) := by
  refine ⟨?_, ?_, ?_, ?_⟩
  · intro start validity s h
    unfold mkSeqIdManager at h
    split at h
    · cases h
    · split at h
      · cases h
      · simp only [Option.some.injEq] at h
        subst h
        rfl
  · intro s uid t b s' h hi
    rcases issue_cases hi with ⟨e, _, _, _, rfl⟩ | ⟨rfl, rfl⟩
    · exact h
    · exact seqInv_alloc h
  · intro s uid q h
    exact seqInv_mark h
  · intro s uid t b s' h hi
    rcases issue_cases hi with ⟨e, _, _, _, rfl⟩ | ⟨rfl, rfl⟩
    · exact Or.inl rfl
    · right
      refine ⟨rfl, rfl, ?_⟩
      intro k b₀ hk
      have := seqInv_seq_lt h hk
      simpa [freshBinding] using this

/-- Witness for C8 on a concrete run: the invariant survives issue and
mark_used from a fresh manager, and the first issue advanced the counter. -/
theorem C8_seq_monotonic_witness :
    seqInv exS1 = true ∧ seqInv (mark_used exS1 "A" 1).2 = true ∧
    exS1.counter = exS.counter + 1 := by
  refine ⟨C8_seq_monotonic.2.1 exS "A" 0 exB exS1 (by decide) (by decide),
          C8_seq_monotonic.2.2.1 exS1 "A" 1 (by decide), ?_⟩
  rcases C8_seq_monotonic.2.2.2 exS "A" 0 exB exS1 (by decide) (by decide)
    with h | h
  · exact absurd (congrArg SeqState.counter h) (by decide)
  · exact h.2.1

/-- C10: when the stored binding for a uid is stale (expired or used) and
`issue` re-allocates, the old binding stays in the `by_seq` index, and
presenting the old seq_id for that uid is answered SEQ_MISMATCH (not
EXPIRED or ALREADY_USED) at every time, because validation looks the
binding up by uid alone and compares seq_ids. -/
theorem C10_stale_reissue_mismatch (s : SeqState) (uid : String) (t : Int)
    (old : SeqBinding) (b : SeqBinding) (s' : SeqState)
    (hinv : seqInv s = true)
    (hl : alookup s.by_uid uid = some old)
    (hstale : is_expired old t = true ∨ old.used = true)
    (hi : issue s uid t = some (b, s')) (t' : Int) :
    alookup s'.by_seq old.seq_id = some old ∧
    validate s' uid old.seq_id t' = "SEQ_MISMATCH" := by
  rcases issue_cases hi with ⟨e, hle, hact, rfl, rfl⟩ | ⟨rfl, rfl⟩
  · rw [hl] at hle
    simp only [Option.some.injEq] at hle
    subst hle
    simp only [Bool.and_eq_true, Bool.not_eq_true'] at hact
    rcases hstale with hx | hx
    · rw [hact.1] at hx
      cases hx
    · rw [hact.2] at hx
      cases hx
  · obtain ⟨hu, hs, hlt⟩ := seqInv_uid hinv hl
    constructor
    · simp only [allocState, alookup_cons]
      have hne : ¬ (s.counter = old.seq_id) := by omega
      rw [if_neg hne]
      exact hs
    · unfold validate
      rw [alookup_allocState]
      have hne : (freshBinding s uid t).seq_id ≠ old.seq_id := by
        simp only [freshBinding]
        omega
      simp [hne]

/-- Witness for C10 on a concrete run: after consuming binding 1 of uid "A"
and re-issuing at time 5, the used binding is still indexed under seq 1 and
presenting seq 1 yields SEQ_MISMATCH. -/
theorem C10_stale_reissue_mismatch_witness :
    alookup exS3.by_seq exBused.seq_id = some exBused ∧
    validate exS3 "A" exBused.seq_id 6 = "SEQ_MISMATCH" :=
  C10_stale_reissue_mismatch exS2 "A" 5 exBused (freshBinding exS2 "A" 5)
    exS3 (by decide) (by decide) (Or.inr (by decide)) (by decide) 6

/-- Every state sits at index at most 5 on the happy path. -/
theorem stateIdx_le5 (a : AssetState) : stateIdx a ≤ 5 := by
  cases a <;> simp [stateIdx]

/-- `idxState` inverts `stateIdx`. -/
theorem idxState_stateIdx (a : AssetState) : idxState (stateIdx a) = a := by
  cases a <;> rfl

/-- One engine step, seen from asset `u`: a decision that is not a counted
(ACCEPT, transition, for `u`) one leaves `u`'s state unchanged; a counted
one advances `u` exactly one position along the happy path, and its event
is the happy event at the old position. -/
theorem step_char (st : EngineState) (op : Op) (w : Int)
    (d : EnforcementDecision) (st1 : EngineState) (u : String)
    (h : step st op w = some (d, st1)) :
    (¬ (d.asset_id = u ∧ d.decision = ACCEPT ∧ isTransition d.event = true) →
       st1.stateOf u = st.stateOf u) ∧
    ((d.asset_id = u ∧ d.decision = ACCEPT ∧ isTransition d.event = true) →
       stateIdx (st.stateOf u) < 5 ∧
       d.event = happyEventAt (stateIdx (st.stateOf u)) ∧
       stateIdx (st1.stateOf u) = stateIdx (st.stateOf u) + 1) := by
  cases op with
  | rfid uid gw ts =>
    simp only [step, Option.some.injEq] at h
    obtain ⟨hid, hev, -⟩ := rfid_fields st uid gw ts w
    rw [h] at hid hev
    dsimp only at hid hev
    by_cases hacc : d.decision = ACCEPT
    · have hacc' : (handle_rfid_read st uid gw ts w).1.decision = ACCEPT :=
        by rw [h]; exact hacc
      obtain ⟨hg, -, -, hx, hfr⟩ := rfid_accept_char st uid gw ts w hacc'
      rw [h] at hx hfr
      dsimp only at hx hfr
      by_cases hu : u = uid
      · subst hu
        constructor
        · intro hn
          exact absurd ⟨hid, hacc, by rw [hev]; rfl⟩ hn
        · intro _hyp
          rw [hg, hx, hev]
          exact ⟨by simp [stateIdx], rfl, by simp [stateIdx]⟩
      · constructor
        · intro _hyp
          exact hfr u (by simpa using hu)
        · intro hcnt
          exact absurd (hid ▸ hcnt.1).symm hu
    · obtain ⟨-, -, hfr⟩ := rfid_not_accept st uid gw ts w
        (by rw [h]; exact hacc)
      rw [h] at hfr
      dsimp only at hfr
      constructor
      · intro _hyp
        exact hfr u
      · intro hcnt
        exact absurd hcnt.2.1 hacc
  | seqReq uid ts =>
    simp only [step] at h
    obtain ⟨hid, hev⟩ := seqreq_fields st uid ts w d st1 h
    by_cases hacc : d.decision = ACCEPT
    · obtain ⟨hg, -, -, hx, hfr⟩ := seqreq_accept_char st uid ts w d st1 h
        hacc
      by_cases hu : u = uid
      · subst hu
        constructor
        · intro hn
          exact absurd ⟨hid, hacc, by rw [hev]; rfl⟩ hn
        · intro _hyp
          rw [hg, hx, hev]
          exact ⟨by simp [stateIdx], rfl, by simp [stateIdx]⟩
      · constructor
        · intro _hyp
          exact hfr u (by simpa using hu)
        · intro hcnt
          exact absurd (hid ▸ hcnt.1).symm hu
    · obtain ⟨-, hst, -⟩ := seqreq_reject_char st uid ts w d st1 h hacc
      subst hst
      constructor
      · intro _hyp
        rfl
      · intro hcnt
        exact absurd hcnt.2.1 hacc
  | xrf uid sq p sc c pc ts th =>
    simp only [step, Option.some.injEq] at h
    obtain ⟨hid, hev⟩ := xrf_fields st uid sq p sc c pc ts th w
    rw [h] at hid hev
    dsimp only at hid hev
    by_cases hacc : d.decision = ACCEPT
    · have hacc' : (handle_xrf_report st uid sq p sc c pc ts th
          w).1.decision = ACCEPT := by rw [h]; exact hacc
      obtain ⟨hg, -, hx, hfr, -, -, -⟩ :=
        xrf_accept_char st uid sq p sc c pc ts th w hacc'
      rw [h] at hx hfr
      dsimp only at hx hfr
      by_cases hu : u = uid
      · subst hu
        constructor
        · intro hn
          exact absurd ⟨hid, hacc, by rw [hev]; rfl⟩ hn
        · intro _hyp
          rw [hg, hx, hev]
          exact ⟨by simp [stateIdx], rfl, by simp [stateIdx]⟩
      · constructor
        · intro _hyp
          exact hfr u (by simpa using hu)
        · intro hcnt
          exact absurd (hid ▸ hcnt.1).symm hu
    · obtain ⟨-, hst, -⟩ := xrf_not_accept st uid sq p sc c pc ts th w
        (by rw [h]; exact hacc)
      rw [h] at hst
      dsimp only at hst
      subst hst
      constructor
      · intro _hyp
        rfl
      · intro hcnt
        exact absurd hcnt.2.1 hacc
  | slotAssign uid slot ts =>
    simp only [step, Option.some.injEq] at h
    obtain ⟨hid, hev, -⟩ := slot_fields st uid slot ts w
    rw [h] at hid hev
    dsimp only at hid hev
    by_cases hacc : d.decision = ACCEPT
    · have hacc' : (handle_slot_assigned st uid slot ts w).1.decision =
        ACCEPT := by rw [h]; exact hacc
      obtain ⟨hg, -, -, hx, hfr⟩ := slot_accept_char st uid slot ts w hacc'
      rw [h] at hx hfr
      dsimp only at hx hfr
      by_cases hu : u = uid
      · subst hu
        constructor
        · intro hn
          exact absurd ⟨hid, hacc, by rw [hev]; rfl⟩ hn
        · intro _hyp
          rw [hg, hx, hev]
          exact ⟨by simp [stateIdx], rfl, by simp [stateIdx]⟩
      · constructor
        · intro _hyp
          exact hfr u (by simpa using hu)
        · intro hcnt
          exact absurd (hid ▸ hcnt.1).symm hu
    · obtain ⟨-, hst, -⟩ := slot_not_accept st uid slot ts w
        (by rw [h]; exact hacc)
      rw [h] at hst
      dsimp only at hst
      subst hst
      constructor
      · intro _hyp
        rfl
      · intro hcnt
        exact absurd hcnt.2.1 hacc
  | storage uid slot ts =>
    simp only [step, Option.some.injEq] at h
    obtain ⟨hid, hev, -⟩ := storage_fields st uid slot ts w
    rw [h] at hid hev
    dsimp only at hid hev
    by_cases hacc : d.decision = ACCEPT
    · have hacc' : (handle_storage_confirmed st uid slot ts w).1.decision =
        ACCEPT := by rw [h]; exact hacc
      obtain ⟨hg, -, -, hx, hfr⟩ := storage_accept_char st uid slot ts w
        hacc'
      rw [h] at hx hfr
      dsimp only at hx hfr
      by_cases hu : u = uid
      · subst hu
        constructor
        · intro hn
          exact absurd ⟨hid, hacc, by rw [hev]; rfl⟩ hn
        · intro _hyp
          rw [hg, hx, hev]
          exact ⟨by simp [stateIdx], rfl, by simp [stateIdx]⟩
      · constructor
        · intro _hyp
          exact hfr u (by simpa using hu)
        · intro hcnt
          exact absurd (hid ▸ hcnt.1).symm hu
    · obtain ⟨-, hst, -⟩ := storage_not_accept st uid slot ts w
        (by rw [h]; exact hacc)
      rw [h] at hst
      dsimp only at hst
      subst hst
      constructor
      · intro _hyp
        rfl
      · intro hcnt
        exact absurd hcnt.2.1 hacc
  | motion uid slot ts =>
    simp only [step, Option.some.injEq] at h
    obtain ⟨halert, -, -, -, hfr⟩ := motion_char st uid slot ts w
    rw [h] at halert hfr
    dsimp only at halert hfr
    constructor
    · intro _hyp
      exact hfr u
    · intro hcnt
      rw [halert] at hcnt
      exact absurd hcnt.2.1 (by decide)

/-- C5: every engine operation (with a non-blank uid where the contract
demands it) returns exactly one decision; every REJECT decision carries
`next_state = prev_state` and leaves the identity manager and every
asset's FSM state unchanged; in particular a PURITY_TOO_LOW rejection in
SEQ_BOUND leaves the asset SEQ_BOUND with the whole engine state intact. -/
theorem C5_reject_frame :
    (∀ st op w, opOk op = true → (step st op w).isSome = true) ∧
    (∀ st op w d st1, step st op w = some (d, st1) →
       d.decision = REJECT →
       d.next_state = d.prev_state ∧ st1.seq = st.seq ∧
       (∀ u, st1.stateOf u = st.stateOf u)) ∧
    (∀ st uid sq p sc c pc ts th w,
       st.stateOf uid = SEQ_BOUND →
       (handle_xrf_report st uid sq p sc c pc ts th w).1.reason =
         "SANITY_FAIL:PURITY_TOO_LOW" →
       (handle_xrf_report st uid sq p sc c pc ts th w).2 = st ∧
       (handle_xrf_report st uid sq p sc c pc ts th w).2.stateOf uid =
         SEQ_BOUND) := by
  refine ⟨?_, ?_, ?_⟩
  · intro st op w hok
    cases op with
    | seqReq uid ts =>
      have hb : blankUid uid = false := by
        simpa [opOk] using hok
      exact seqreq_isSome st uid ts w hb
    | rfid uid gw ts => rfl
    | xrf uid sq p sc c pc ts th => rfl
    | slotAssign uid slot ts => rfl
    | storage uid slot ts => rfl
    | motion uid slot ts => rfl
  · intro st op w d st1 h hrej
    cases op with
    | rfid uid gw ts =>
      simp only [step, Option.some.injEq] at h
      have hn : (handle_rfid_read st uid gw ts w).1.decision ≠ ACCEPT := by
        rw [h]
        simp [hrej]
      obtain ⟨-, hnext, hframe⟩ := rfid_not_accept st uid gw ts w hn
      obtain ⟨-, -, hseq⟩ := rfid_fields st uid gw ts w
      rw [h] at hnext hframe hseq
      exact ⟨hnext, hseq, hframe⟩
    | seqReq uid ts =>
      simp only [step] at h
      have hn : d.decision ≠ ACCEPT := by simp [hrej]
      obtain ⟨-, hst, hnext⟩ := seqreq_reject_char st uid ts w d st1 h hn
      subst hst
      exact ⟨hnext, rfl, fun u => rfl⟩
    | xrf uid sq p sc c pc ts th =>
      simp only [step, Option.some.injEq] at h
      have hn : (handle_xrf_report st uid sq p sc c pc ts th w).1.decision ≠
          ACCEPT := by
        rw [h]
        simp [hrej]
      obtain ⟨-, hst, hnext⟩ := xrf_not_accept st uid sq p sc c pc ts th w hn
      rw [h] at hst hnext
      subst hst
      exact ⟨hnext, rfl, fun u => rfl⟩
    | slotAssign uid slot ts =>
      simp only [step, Option.some.injEq] at h
      have hn : (handle_slot_assigned st uid slot ts w).1.decision ≠
          ACCEPT := by
        rw [h]
        simp [hrej]
      obtain ⟨-, hst, hnext⟩ := slot_not_accept st uid slot ts w hn
      rw [h] at hst hnext
      subst hst
      exact ⟨hnext, rfl, fun u => rfl⟩
    | storage uid slot ts =>
      simp only [step, Option.some.injEq] at h
      have hn : (handle_storage_confirmed st uid slot ts w).1.decision ≠
          ACCEPT := by
        rw [h]
        simp [hrej]
      obtain ⟨-, hst, hnext⟩ := storage_not_accept st uid slot ts w hn
      rw [h] at hst hnext
      subst hst
      exact ⟨hnext, rfl, fun u => rfl⟩
    | motion uid slot ts =>
      simp only [step, Option.some.injEq] at h
      obtain ⟨halert, -⟩ := motion_char st uid slot ts w
      rw [h] at halert
      rw [halert] at hrej
      cases hrej
  · intro st uid sq p sc c pc ts th w hg hreason
    by_cases hv : validate st.seq uid sq w = "OK"
    case neg =>
      exfalso
      rw [xrf_seq_invalid st uid sq p sc c pc ts th w hg hv] at hreason
      simp only [_reject_simple] at hreason
      rcases validate_cases st.seq uid sq w with hval | hval | hval | hval |
        hval
      · exact hv hval
      all_goals rw [hval] at hreason
      all_goals exact absurd hreason (by decide)
    case pos =>
      by_cases hp : p < purity_min_of th
      · constructor
        · simp [handle_xrf_report, hg, hv, hp, _reject_simple]
        · simp [handle_xrf_report, hg, hv, hp, _reject_simple, hg]
      · by_cases hsc : sc < scan_min_of th
        · exfalso
          simp [handle_xrf_report, hg, hv, hp, hsc, _reject_simple]
            at hreason
        · by_cases hc : (contact_required_of th && !c) = true
          · exfalso
            simp [handle_xrf_report, hg, hv, hp, hsc, hc,
                  _reject_simple] at hreason
          · exfalso
            simp [handle_xrf_report, hg, hv, hp, hsc, hc, FSM.apply,
                  nonTransitionEvent, _ALLOWED, _accept] at hreason

/-- Witness for C5 on a concrete run: the purity-98 report from
`exEngineBound` is a decision, rejects without moving state, and leaves
the manager untouched. -/
theorem C5_reject_frame_witness :
    (step exEngineBound (Op.xrf "A" 1 98 10 true "PC01" none none) 1).isSome
      = true ∧
    c5r.1.next_state = c5r.1.prev_state ∧ c5r.2.seq = exEngineBound.seq ∧
    c5r.2.stateOf "A" = exEngineBound.stateOf "A" ∧
    c5r.2.stateOf "A" = SEQ_BOUND := by
  have h1 := C5_reject_frame.1 exEngineBound
    (Op.xrf "A" 1 98 10 true "PC01" none none) 1 rfl
  have h2 := C5_reject_frame.2.1 exEngineBound
    (Op.xrf "A" 1 98 10 true "PC01" none none) 1 c5r.1 c5r.2 rfl (by decide)
  have h3 := C5_reject_frame.2.2 exEngineBound "A" 1 98 10 true "PC01"
    none none 1 (by decide) (by decide)
  exact ⟨h1, h2.1, h2.2.1, h2.2.2 "A", h3.2⟩

/-- C4: the verification-report handler checks in the order state gate,
identity validation, sanity thresholds, transition, consumption: in
SEQ_BOUND an invalid identity is rejected as SEQ_INVALID:<reason>
whatever the measurement values; an accepted call ends with the asset in
XRF_VERIFIED and the binding consumed (ALREADY_USED thereafter); a
rejected call never touches the identity manager. -/
theorem C4_xrf_check_order :
    (∀ st uid sq p sc c pc ts th wall,
      st.stateOf uid = SEQ_BOUND →
      validate st.seq uid sq wall ≠ "OK" →
      (handle_xrf_report st uid sq p sc c pc ts th wall).1.decision =
        REJECT ∧
      (handle_xrf_report st uid sq p sc c pc ts th wall).1.reason =
        "SEQ_INVALID:" ++ validate st.seq uid sq wall ∧
      (handle_xrf_report st uid sq p sc c pc ts th wall).2 = st) ∧
    (∀ st uid sq p sc c pc ts th wall,
      (handle_xrf_report st uid sq p sc c pc ts th wall).1.decision =
        ACCEPT →
      (handle_xrf_report st uid sq p sc c pc ts th wall).2.stateOf uid =
        XRF_VERIFIED ∧
      validate (handle_xrf_report st uid sq p sc c pc ts th wall).2.seq uid
        sq wall = "ALREADY_USED" ∧
      ∃ b, alookup
          (handle_xrf_report st uid sq p sc c pc ts th wall).2.seq.by_uid
          uid = some b ∧ b.used = true ∧ b.seq_id = sq) ∧
    (∀ st uid sq p sc c pc ts th wall,
      (handle_xrf_report st uid sq p sc c pc ts th wall).1.decision =
        REJECT →
      (handle_xrf_report st uid sq p sc c pc ts th wall).2.seq = st.seq) := by
  refine ⟨?_, ?_, ?_⟩
  · intro st uid sq p sc c pc ts th wall hg hv
    rw [xrf_seq_invalid st uid sq p sc c pc ts th wall hg hv]
    exact ⟨rfl, rfl, rfl⟩
  · intro st uid sq p sc c pc ts th wall hacc
    obtain ⟨hg, hv, hxrf, -, hseq, -, -⟩ :=
      xrf_accept_char st uid sq p sc c pc ts th wall hacc
    obtain ⟨hval, hex⟩ := mark_used_after_OK st.seq uid sq wall hv
    rw [hseq]
    exact ⟨hxrf, hval, hex⟩
  · intro st uid sq p sc c pc ts th wall hrej
    have hn : (handle_xrf_report st uid sq p sc c pc ts th wall).1.decision
        ≠ ACCEPT := by
      rw [hrej]
      simp
    obtain ⟨-, hst, -⟩ := xrf_not_accept st uid sq p sc c pc ts th wall hn
    rw [hst]

/-- C1 as stated is false on the code: after an accepted verification
report the asset is XRF_VERIFIED, so the re-presented identical report is
rejected by the state gate with reason STATE_NOT_SEQ_BOUND — identity
validation is never reached and ALREADY_USED is not the reason.  Concrete
refutation on the spec's own scenario. -/
theorem C1_replay_counterexample :
    c1r2.1.reason = "SEQ_ISSUED" ∧
    c1r3.1.decision = ACCEPT ∧
    c1r3.1.prev_state = SEQ_BOUND ∧
    c1r3.1.next_state = XRF_VERIFIED ∧
    c1r4.1.decision = REJECT ∧
    c1r4.1.reason = "STATE_NOT_SEQ_BOUND" ∧
    ¬ (c1r4.1.reason = "SEQ_INVALID:ALREADY_USED") ∧
    c1r4.2.stateOf "UID123" = XRF_VERIFIED := by
  decide

/-- C1 amended: after an accepted verification report, re-presenting the
same (uid, seq_id) is rejected — with reason STATE_NOT_SEQ_BOUND from the
state gate, which precedes identity validation — the state remains
XRF_VERIFIED, and the binding is indeed consumed: the manager's validate
would answer ALREADY_USED for the replayed pair. -/
theorem C1_replay_rejected_by_state_gate
    (st : EngineState) (uid : String) (sq : Int) (p : ℚ) (sc : Int)
    (c : Bool) (pc : String) (ts : Option Int) (th : Option Thresholds)
    (wall : Int) (p' : ℚ) (sc' : Int) (c' : Bool) (pc' : String)
    (ts' : Option Int) (th' : Option Thresholds) (wall' : Int)
    (hacc : (handle_xrf_report st uid sq p sc c pc ts th wall).1.decision =
      ACCEPT) :
    (handle_xrf_report (handle_xrf_report st uid sq p sc c pc ts th wall).2
      uid sq p' sc' c' pc' ts' th' wall').1.decision = REJECT ∧
    (handle_xrf_report (handle_xrf_report st uid sq p sc c pc ts th wall).2
      uid sq p' sc' c' pc' ts' th' wall').1.reason = "STATE_NOT_SEQ_BOUND" ∧
    (handle_xrf_report (handle_xrf_report st uid sq p sc c pc ts th wall).2
      uid sq p' sc' c' pc' ts' th' wall').2.stateOf uid = XRF_VERIFIED ∧
    validate (handle_xrf_report st uid sq p sc c pc ts th wall).2.seq uid sq
      wall = "ALREADY_USED" := by
  obtain ⟨hg, hv, hx, -, hseq, -, -⟩ :=
    xrf_accept_char st uid sq p sc c pc ts th wall hacc
  generalize hgen :
    (handle_xrf_report st uid sq p sc c pc ts th wall).2 = st1 at hx hseq ⊢
  refine ⟨?_, ?_, ?_, ?_⟩
  · simp [handle_xrf_report, hx, _reject_simple]
  · simp [handle_xrf_report, hx, _reject_simple]
  · simp [handle_xrf_report, hx, _reject_simple]
  · rw [hseq]
    exact (mark_used_after_OK st.seq uid sq wall hv).1

/-- Witness for the amended C1 on the concrete replay scenario. -/
theorem C1_replay_rejected_by_state_gate_witness :
    c1r4.1.decision = REJECT ∧
    c1r4.1.reason = "STATE_NOT_SEQ_BOUND" ∧
    c1r4.2.stateOf "UID123" = XRF_VERIFIED ∧
    validate c1r3.2.seq "UID123" 1 1 = "ALREADY_USED" :=
  C1_replay_rejected_by_state_gate c1r2.2 "UID123" 1 100 10 true "PC01"
    none none 1 100 10 true "PC01" none none 2 (by decide)

/-- C2 is right about the intent but the code violates it: the engine
calls `validate(uid, seq_id)` without passing a time, so identity
validation reads the wall clock and ignores the supplied `ts_utc` — from
the identical engine state with identical explicit arguments (including
`ts_utc = some 1`), the decision flips from ACCEPT to
REJECT SEQ_INVALID:EXPIRED purely because the wall clock moved past the
binding's expiry. -/
theorem C2_wall_clock_dependence :
    (handle_xrf_report exEngineBound "A" 1 100 10 true "PC01" (some 1) none
      1).1.decision = ACCEPT ∧
    (handle_xrf_report exEngineBound "A" 1 100 10 true "PC01" (some 1) none
      21).1.decision = REJECT ∧
    (handle_xrf_report exEngineBound "A" 1 100 10 true "PC01" (some 1) none
      21).1.reason = "SEQ_INVALID:EXPIRED" := by
  decide

/-- Witness for C4 on concrete runs: a mismatched seq with failing purity
still rejects as SEQ_INVALID:SEQ_MISMATCH with the manager untouched, and
the accepted report consumes the binding. -/
theorem C4_xrf_check_order_witness :
    (handle_xrf_report exEngineBound "A" 2 98 10 true "PC01" none none
      1).1.decision = REJECT ∧
    (handle_xrf_report exEngineBound "A" 2 98 10 true "PC01" none none
      1).1.reason = "SEQ_INVALID:" ++ validate exEngineBound.seq "A" 2 1 ∧
    c4r.2.stateOf "A" = XRF_VERIFIED ∧
    validate c4r.2.seq "A" 1 1 = "ALREADY_USED" ∧
    (handle_xrf_report exEngineBound "A" 2 98 10 true "PC01" none none
      1).2.seq = exEngineBound.seq := by
  have ha := C4_xrf_check_order.1 exEngineBound "A" 2 98 10 true "PC01"
    none none 1 (by decide) (by decide)
  have hb := C4_xrf_check_order.2.1 exEngineBound "A" 1 100 10 true "PC01"
    none none 1 (by decide)
  have hc := C4_xrf_check_order.2.2 exEngineBound "A" 2 98 10 true "PC01"
    none none 1 ha.1
  exact ⟨ha.1, ha.2.1, hb.1, hb.2.1, hc⟩

/-- Dropping `i` of a take that still covers index `i` peels off element `i`. -/
theorem take_drop_cons {α : Type} (l : List α) (i f : Nat) (hif : i < f)
    (hil : i < l.length) :
    (l.take f).drop i = l.get ⟨i, hil⟩ :: (l.take f).drop (i + 1) := by
  induction l generalizing i f with
  | nil => simp at hil
  | cons a rest ih =>
    cases f with
    | zero => omega
    | succ f' =>
      cases i with
      | zero => simp
      | succ i' =>
        have hif' : i' < f' := by omega
        have hil' : i' < rest.length := by simpa using hil
        simp [List.take_succ_cons, List.drop_succ_cons, ih i' f' hif' hil']

/-- The i-th happy event, in indexed form. -/
theorem happy_get (i : Nat) (hil : i < happyEvents.length) :
    happyEvents.get ⟨i, hil⟩ = happyEventAt i := by
  simp [happyEvents] at hil
  interval_cases i <;> rfl

/-- One decision extends the counted-event list iff it is an ACCEPT of a
transition event for the asset. -/
theorem acceptedFor_cons (u : String) (d : EnforcementDecision)
    (ds : List EnforcementDecision) :
    acceptedFor u (d :: ds) =
      if d.asset_id = u ∧ d.decision = ACCEPT ∧ isTransition d.event = true
      then d.event :: acceptedFor u ds else acceptedFor u ds := by
  by_cases h1 : d.asset_id = u <;> by_cases h2 : d.decision = ACCEPT <;>
    by_cases h3 : isTransition d.event = true <;>
    simp [acceptedFor, h1, h2, h3]

/-- Trace invariant: along any run, an asset's happy-path index never
decreases, and the counted events are exactly the happy-path segment
between the start and end indices. -/
theorem run_inv (ops : List (Op × Int)) : ∀ (st : EngineState) (u : String),
    stateIdx (st.stateOf u) ≤ stateIdx ((run st ops).1.stateOf u) ∧
    acceptedFor u (run st ops).2 =
      (happyEvents.take (stateIdx ((run st ops).1.stateOf u))).drop
        (stateIdx (st.stateOf u)) := by
  induction ops with
  | nil =>
    intro st u
    refine ⟨le_refl _, ?_⟩
    show acceptedFor u [] =
      (happyEvents.take (stateIdx (st.stateOf u))).drop
        (stateIdx (st.stateOf u))
    rw [eq_comm]
    refine List.drop_eq_nil_of_le ?_
    simp [happyEvents]
  | cons hd rest ih =>
    obtain ⟨op, w⟩ := hd
    intro st u
    cases hstep : step st op w with
    | none =>
      simp only [run, hstep]
      refine ⟨le_refl _, ?_⟩
      rw [eq_comm]
      refine List.drop_eq_nil_of_le ?_
      simp [happyEvents]
    | some r =>
      obtain ⟨d, st1⟩ := r
      simp only [run, hstep]
      obtain ⟨hskip, hcnt⟩ := step_char st op w d st1 u hstep
      obtain ⟨ihle, iheq⟩ := ih st1 u
      by_cases hc : d.asset_id = u ∧ d.decision = ACCEPT ∧
          isTransition d.event = true
      · obtain ⟨hlt, hev, hidx⟩ := hcnt hc
        refine ⟨by omega, ?_⟩
        rw [acceptedFor_cons, if_pos hc, iheq, hev, hidx]
        have hif : stateIdx (st.stateOf u) <
            stateIdx ((run st1 rest).1.stateOf u) := by omega
        have hil : stateIdx (st.stateOf u) < happyEvents.length := by
          simp [happyEvents]
          omega
        rw [take_drop_cons happyEvents _ _ hif hil, happy_get]
      · have hs := hskip hc
        rw [hs] at ihle iheq
        refine ⟨ihle, ?_⟩
        rw [acceptedFor_cons, if_neg hc, iheq]



/-- C6: from a fresh engine, for every operation sequence and every asset,
the ACCEPTed transition events form exactly `happyEvents.take k` — a
prefix of RFID_READ, SEQ_ASSIGNED, XRF_REPORT_ACCEPTED, SLOT_ASSIGNED,
STORAGE_CONFIRMED with no skip, repeat, or reorder — and the asset's
state after those k accepted transition events is the k-th happy-path
state. -/
theorem C6_happy_prefix (s0 : SeqState) (ops : List (Op × Int))
    (uid : String) :
    acceptedFor uid (run (initEngine s0) ops).2 =
      happyEvents.take
        (stateIdx ((run (initEngine s0) ops).1.stateOf uid)) ∧
    (∃ k, acceptedFor uid (run (initEngine s0) ops).2 =
      happyEvents.take k) ∧
    (run (initEngine s0) ops).1.stateOf uid =
      idxState (acceptedFor uid (run (initEngine s0) ops).2).length := by
  obtain ⟨-, heq⟩ := run_inv ops (initEngine s0) uid
  have heq' : acceptedFor uid (run (initEngine s0) ops).2 =
      happyEvents.take (stateIdx ((run (initEngine s0) ops).1.stateOf uid))
      := by
    simpa [initEngine, EngineState.stateOf, stateIdx] using heq
  refine ⟨heq', ⟨_, heq'⟩, ?_⟩
  rw [heq']
  have h5 := stateIdx_le5 ((run (initEngine s0) ops).1.stateOf uid)
  have hlen : (happyEvents.take
      (stateIdx ((run (initEngine s0) ops).1.stateOf uid))).length =
      stateIdx ((run (initEngine s0) ops).1.stateOf uid) := by
    simp [List.length_take, happyEvents]
    omega
  rw [hlen, idxState_stateIdx]

end AssetLifecycle
